import Mathlib

/-!
Verification of the f1-strategy-ai repository.

Shallow embedding of `src/backend/agents/adk_orchestrator.py` and
`src/backend/services/gemini_service.py`.

Modelling conventions:
* Python numbers (`float`, `int`) are modelled as `ℚ` resp. `ℤ`; the claims
  under study do not depend on IEEE-754 rounding, only on the arithmetic
  structure of the heuristics.
* Python `round(x, n)` is modelled by `pyRound n x`, round-half-to-even on ℚ.
* Python dict payloads travelling over the event bus are modelled by `PyDict`,
  an insertion-ordered association list of string keys to `PyVal` values.
* `random.randint(1, 3)` is modelled by an explicit `draw : ℤ` parameter; the
  source guarantees `1 ≤ draw ≤ 3` for laps drawn there.
* Callbacks registered on the event bus are identified by natural numbers, and
  `publish` returns the list of callback invocations it performs (the bus shim
  in the source calls each callback synchronously and stores nothing).
-/

namespace F1

/-- Python values as they occur in the bus payloads and service arguments of
this repository: strings, ints, floats (as ℚ), `None`, lists and dicts. -/
inductive PyVal where
  | str (s : String)
  | int (n : ℤ)
  | rat (q : ℚ)
  | pynone
  | list (l : List PyVal)
  | dict (d : List (String × PyVal))

/-- A Python dict with string keys, in insertion order. -/
abbrev PyDict := List (String × PyVal)

/-- Dict lookup: the value stored under key `k`, if present. -/
def findKey (d : PyDict) (k : String) : Option PyVal :=
  (d.find? (fun kv => kv.1 == k)).map (fun kv => kv.2)

def asStr : PyVal → Option String
  | .str s => some s
  | _ => none

def asInt : PyVal → Option ℤ
  | .int n => some n
  | _ => none

def asRat : PyVal → Option ℚ
  | .rat q => some q
  | _ => none

def asRatList : PyVal → Option (List ℚ)
  | .list l => l.mapM asRat
  | _ => none

/-! ### Python round

`round(x, n)` in Python rounds to `n` decimal digits, ties to even. -/

/-- Round a rational to the nearest integer, ties to the even integer
(the rounding mode of Python `round`). -/
def rhe (y : ℚ) : ℤ :=
  if y - (⌊y⌋ : ℚ) < 1/2 then ⌊y⌋
  else if 1/2 < y - (⌊y⌋ : ℚ) then ⌊y⌋ + 1
  else if ⌊y⌋ % 2 = 0 then ⌊y⌋ else ⌊y⌋ + 1

/-- Python `round(x, n)`: round to `n` decimal digits, ties to even. -/
def pyRound (n : ℕ) (x : ℚ) : ℚ :=
  (rhe (x * 10 ^ n) : ℚ) / 10 ^ n

theorem rhe_eq_floor_or_succ (y : ℚ) : rhe y = ⌊y⌋ ∨ rhe y = ⌊y⌋ + 1 := by
  unfold rhe
  split_ifs <;> simp

theorem floor_le_rhe (y : ℚ) : ⌊y⌋ ≤ rhe y := by
  rcases rhe_eq_floor_or_succ y with h | h <;> omega

theorem rhe_nonneg (y : ℚ) (hy : 0 ≤ y) : 0 ≤ rhe y := by
  have h0 : (0 : ℤ) ≤ ⌊y⌋ := Int.le_floor.mpr (by exact_mod_cast hy)
  have := floor_le_rhe y
  omega

theorem le_rhe_of_le (k : ℤ) (y : ℚ) (h : (k : ℚ) ≤ y) : k ≤ rhe y := by
  have h1 : k ≤ ⌊y⌋ := Int.le_floor.mpr h
  have h2 := floor_le_rhe y
  omega

theorem rhe_le_of_le (k : ℤ) (y : ℚ) (h : y ≤ (k : ℚ)) : rhe y ≤ k := by
  have hfl : ⌊y⌋ ≤ k := by
    have : ⌊y⌋ ≤ ⌊(k : ℚ)⌋ := Int.floor_le_floor h
    simpa using this
  rcases rhe_eq_floor_or_succ y with he | he
  · omega
  · -- the `+ 1` branches are taken only when the fractional part is ≥ 1/2
    have hr : ¬ (y - (⌊y⌋ : ℚ) < 1/2) := by
      intro hlt
      unfold rhe at he
      rw [if_pos hlt] at he
      omega
    push_neg at hr
    have hfl2 : (⌊y⌋ : ℚ) ≤ y - 1/2 := by linarith
    have : (⌊y⌋ : ℚ) < (k : ℚ) := by linarith
    have : ⌊y⌋ < k := by exact_mod_cast this
    omega

theorem pyRound_nonneg (n : ℕ) (x : ℚ) (hx : 0 ≤ x) : 0 ≤ pyRound n x := by
  unfold pyRound
  have hp : (0 : ℚ) < 10 ^ n := by positivity
  have h1 : 0 ≤ x * 10 ^ n := by positivity
  have h2 : (0 : ℤ) ≤ rhe (x * 10 ^ n) := rhe_nonneg _ h1
  have : (0 : ℚ) ≤ (rhe (x * 10 ^ n) : ℚ) := by exact_mod_cast h2
  positivity

theorem pyRound_le (n : ℕ) (k : ℤ) (x : ℚ) (h : x ≤ (k : ℚ) / 10 ^ n) :
    pyRound n x ≤ (k : ℚ) / 10 ^ n := by
  unfold pyRound
  have hp : (0 : ℚ) < 10 ^ n := by positivity
  have h1 : x * 10 ^ n ≤ (k : ℚ) := (le_div_iff₀ hp).mp h
  have h2 : rhe (x * 10 ^ n) ≤ k := rhe_le_of_le k _ h1
  have h3 : (rhe (x * 10 ^ n) : ℚ) ≤ (k : ℚ) := by exact_mod_cast h2
  exact div_le_div_of_nonneg_right h3 hp.le

theorem le_pyRound (n : ℕ) (k : ℤ) (x : ℚ) (h : (k : ℚ) / 10 ^ n ≤ x) :
    (k : ℚ) / 10 ^ n ≤ pyRound n x := by
  unfold pyRound
  have hp : (0 : ℚ) < 10 ^ n := by positivity
  have h1 : (k : ℚ) ≤ x * 10 ^ n := by
    rw [div_le_iff₀ hp] at h
    linarith
  have h2 : k ≤ rhe (x * 10 ^ n) := le_rhe_of_le k _ h1
  have h3 : (k : ℚ) ≤ (rhe (x * 10 ^ n) : ℚ) := by exact_mod_cast h2
  exact div_le_div_of_nonneg_right h3 hp.le

/-! ### Data models (`adk_orchestrator.py`, dataclasses) -/

/-- `TelemetrySample` dataclass. -/
structure TelemetrySample where
  car_id : String
  lap : ℤ
  sector_times : List ℚ
  speed : ℚ
  tyre_compound : String
  tyre_wear_pct : ℚ
  fuel_kg : ℚ
  position : ℤ
  deriving DecidableEq

/-- `WeatherSample` dataclass. -/
structure WeatherSample where
  temp_c : ℚ
  track_temp_c : ℚ
  rain_prob : ℚ
  wind_kph : ℚ
  deriving DecidableEq

/-- `StrategyInsight` dataclass. -/
structure StrategyInsight where
  recommended_pit_in_laps : Option ℤ
  target_compound : Option String
  pace_delta_s : ℚ
  risk_rain : ℚ
  confidence : ℚ
  deriving DecidableEq

/-- `sample.__dict__` for a `TelemetrySample`: the field dictionary published
by `TelemetryAgent._run` on topic `telemetry.sample`. -/
def encodeTel (t : TelemetrySample) : PyDict :=
  [("car_id", .str t.car_id),
   ("lap", .int t.lap),
   ("sector_times", .list (t.sector_times.map .rat)),
   ("speed", .rat t.speed),
   ("tyre_compound", .str t.tyre_compound),
   ("tyre_wear_pct", .rat t.tyre_wear_pct),
   ("fuel_kg", .rat t.fuel_kg),
   ("position", .int t.position)]

/-- `sample.__dict__` for a `WeatherSample`: the field dictionary published
by `WeatherAgent._run` on topic `weather.sample`. -/
def encodeWx (w : WeatherSample) : PyDict :=
  [("temp_c", .rat w.temp_c),
   ("track_temp_c", .rat w.track_temp_c),
   ("rain_prob", .rat w.rain_prob),
   ("wind_kph", .rat w.wind_kph)]

/-- `TelemetrySample(**payload)`: keyword construction from a dict.  It
succeeds exactly when the dict binds each of the eight constructor parameters
(to a value of the annotated type) and nothing else; a missing or extra key
raises `TypeError` in Python, modelled by `none`. -/
def decodeTel (d : PyDict) : Option TelemetrySample :=
  if d.length = 8 then do
    let car_id ← (findKey d "car_id").bind asStr
    let lap ← (findKey d "lap").bind asInt
    let sector_times ← (findKey d "sector_times").bind asRatList
    let speed ← (findKey d "speed").bind asRat
    let tyre_compound ← (findKey d "tyre_compound").bind asStr
    let tyre_wear_pct ← (findKey d "tyre_wear_pct").bind asRat
    let fuel_kg ← (findKey d "fuel_kg").bind asRat
    let position ← (findKey d "position").bind asInt
    pure { car_id, lap, sector_times, speed, tyre_compound, tyre_wear_pct,
           fuel_kg, position }
  else none

/-- `WeatherSample(**payload)`: keyword construction from a dict. -/
def decodeWx (d : PyDict) : Option WeatherSample :=
  if d.length = 4 then do
    let temp_c ← (findKey d "temp_c").bind asRat
    let track_temp_c ← (findKey d "track_temp_c").bind asRat
    let rain_prob ← (findKey d "rain_prob").bind asRat
    let wind_kph ← (findKey d "wind_kph").bind asRat
    pure { temp_c, track_temp_c, rain_prob, wind_kph }
  else none

/-- `dataclass_to_dict` applied to a `StrategyInsight` (as published by
`StrategyAgent._run` on topic `strategy.insight`). -/
def encodeInsight (i : StrategyInsight) : PyDict :=
  [("recommended_pit_in_laps",
      match i.recommended_pit_in_laps with
      | some n => .int n
      | none => .pynone),
   ("target_compound",
      match i.target_compound with
      | some s => .str s
      | none => .pynone),
   ("pace_delta_s", .rat i.pace_delta_s),
   ("risk_rain", .rat i.risk_rain),
   ("confidence", .rat i.confidence)]

/-! ### StrategyAgent._compute_insight

The optional Gemini branch in the source awaits the model and discards the
result under a blanket `except`, so it has no effect on the returned insight;
it is therefore not part of the returned value below.  `random.randint(1, 3)`
is the explicit `draw` parameter. -/

/-- `StrategyAgent._compute_insight(tel, wx)` with the `random.randint(1, 3)`
outcome passed in as `draw`. -/
def computeInsight (tel : TelemetrySample) (wx : WeatherSample) (draw : ℤ) :
    StrategyInsight :=
  let wear := tel.tyre_wear_pct
  let rain := wx.rain_prob
  let pace_delta := max 0 ((wear - 10) * (5/100)) + rain * (2/10)
  let pit : Prop :=
    wear > 35 ∨ (rain > 45/100 ∧
      (tel.tyre_compound = "SOFT" ∨ tel.tyre_compound = "MEDIUM"))
  let recommend_in : Option ℤ := if pit then some draw else none
  let target_compound : Option String :=
    if pit then
      some (if rain > 5/10 then "INTERS"
            else if tel.tyre_compound ≠ "HARD" then "HARD" else "MEDIUM")
    else none
  let confidence₀ := 6/10 + (4/10 - min (4/10) |3/10 - rain|) - min (3/10) (wear / 100)
  let confidence := max (1/10) (min (95/100) confidence₀)
  { recommended_pit_in_laps := recommend_in,
    target_compound := target_compound,
    pace_delta_s := pyRound 3 pace_delta,
    risk_rain := rain,
    confidence := pyRound 2 confidence }

/-! ### Event bus (`EventBus` shim in `adk_orchestrator.py`)

`EventBus._subs` is a Python dict from topic to the list of callbacks in
registration order; Python dicts preserve key insertion order, so the state is
an association list.  Callbacks are identified by naturals.  `publish` calls
each callback of the topic synchronously with an `Event` dict carrying the
topic and the payload (the `ts` field, `time.time()`, is wall-clock glue and
is not part of the model); it stores nothing and never mutates `_subs`, so it
is modelled as returning the unchanged bus together with the list of
invocations `(callback, event)` it performs, in call order. -/

/-- The `Event` dict built by `EventBus.publish`. -/
structure EventRec where
  topic : String
  payload : PyDict

/-- `EventBus._subs`: topic → callbacks, in key-insertion order. -/
abbrev Bus := List (String × List ℕ)

/-- `EventBus.subscribe(topic, callback)`:
`self._subs.setdefault(topic, []).append(callback)`. -/
def subscribe (b : Bus) (t : String) (c : ℕ) : Bus :=
  match b with
  | [] => [(t, [c])]
  | (t₂, cs) :: rest =>
      if t₂ = t then (t₂, cs ++ [c]) :: rest
      else (t₂, cs) :: subscribe rest t c

/-- `self._subs.get(topic, [])`. -/
def subsOf (b : Bus) (t : String) : List ℕ :=
  match b with
  | [] => []
  | (t₂, cs) :: rest => if t₂ = t then cs else subsOf rest t

/-- `EventBus.publish(topic, payload)`: the unchanged bus, and the callback
invocations performed (each subscriber of the topic once, in order). -/
def publish (b : Bus) (t : String) (p : PyDict) : Bus × List (ℕ × EventRec) :=
  (b, (subsOf b t).map (fun c => (c, ⟨t, p⟩)))

/-- A bus built by a sequence of `subscribe` registrations, oldest first. -/
def busOfRegs (regs : List (String × ℕ)) : Bus :=
  regs.foldl (fun b r => subscribe b r.1 r.2) []

theorem subsOf_subscribe (b : Bus) (t t₂ : String) (c : ℕ) :
    subsOf (subscribe b t₂ c) t =
      if t₂ = t then subsOf b t ++ [c] else subsOf b t := by
  induction b with
  | nil =>
      by_cases h : t₂ = t <;> simp [subscribe, subsOf, h]
  | cons hd rest ih =>
      obtain ⟨t₃, cs⟩ := hd
      by_cases h3 : t₃ = t₂
      · subst h3
        by_cases h : t₃ = t <;> simp [subscribe, subsOf, h]
      · by_cases h : t₃ = t
        · subst h
          simp [subscribe, subsOf, h3, Ne.symm h3, ih]
        · simp [subscribe, subsOf, h3, h, ih]

theorem subsOf_busOfRegs_aux (regs : List (String × ℕ)) (b : Bus) (t : String) :
    subsOf (regs.foldl (fun b r => subscribe b r.1 r.2) b) t =
      subsOf b t ++ (regs.filter (fun r => r.1 = t)).map (fun r => r.2) := by
  induction regs generalizing b with
  | nil => simp
  | cons r rest ih =>
      obtain ⟨t₂, c⟩ := r
      by_cases h : t₂ = t
      · subst h
        simp [ih, subsOf_subscribe]
      · simp [ih, subsOf_subscribe, h]

/-! ### Operation traces over the bus (for the no-retention claim) -/

/-- A bus operation: a subscription or a publish. -/
inductive BusOp where
  | sub (t : String) (c : ℕ)
  | pub (t : String) (p : PyDict)

/-- Run a list of bus operations, starting from step index `i` and bus `b`;
the result is the delivery log: one entry `(step, callback, topic, payload)`
per callback invocation, in order. -/
def runLog (i : ℕ) (b : Bus) : List BusOp → List (ℕ × ℕ × String × PyDict)
  | [] => []
  | .sub t c :: rest => runLog (i + 1) (subscribe b t c) rest
  | .pub t p :: rest =>
      ((subsOf b t).map (fun c => (i, c, t, p))) ++ runLog (i + 1) b rest

theorem runLog_mem (ops : List BusOp) (i : ℕ) (b : Bus)
    (j c : ℕ) (t : String) (p : PyDict)
    (hmem : (j, c, t, p) ∈ runLog i b ops) :
    i ≤ j ∧ (c ∈ subsOf b t ∨
      ∃ k, i ≤ k ∧ k < j ∧ ops.get? (k - i) = some (BusOp.sub t c)) := by
  induction ops generalizing i b with
  | nil => simp [runLog] at hmem
  | cons op rest ih =>
      cases op with
      | sub t₂ c₂ =>
          simp only [runLog] at hmem
          obtain ⟨h1, h2⟩ := ih (i + 1) (subscribe b t₂ c₂) hmem
          refine ⟨by omega, ?_⟩
          rcases h2 with h2 | ⟨k, hk1, hk2, hk3⟩
          · rw [subsOf_subscribe] at h2
            by_cases ht : t₂ = t
            · subst ht
              rw [if_pos rfl] at h2
              rcases List.mem_append.mp h2 with h2 | h2
              · exact Or.inl h2
              · right
                refine ⟨i, le_refl i, by omega, ?_⟩
                simp at h2
                subst h2
                simp
            · rw [if_neg ht] at h2
              exact Or.inl h2
          · right
            refine ⟨k, by omega, hk2, ?_⟩
            have hki : k - i = (k - (i + 1)) + 1 := by omega
            rw [hki]
            simpa using hk3
      | pub t₂ p₂ =>
          simp only [runLog, List.mem_append] at hmem
          rcases hmem with hmem | hmem
          · simp only [List.mem_map] at hmem
            obtain ⟨c₃, hc₃, heq⟩ := hmem
            simp only [Prod.mk.injEq] at heq
            obtain ⟨hj, hc, ht, hp⟩ := heq
            refine ⟨le_of_eq hj, Or.inl ?_⟩
            rw [← hc, ← ht]
            exact hc₃
          · obtain ⟨h1, h2⟩ := ih (i + 1) b hmem
            refine ⟨by omega, ?_⟩
            rcases h2 with h2 | ⟨k, hk1, hk2, hk3⟩
            · exact Or.inl h2
            · right
              refine ⟨k, by omega, hk2, ?_⟩
              have hki : k - i = (k - (i + 1)) + 1 := by omega
              rw [hki]
              simpa using hk3

/-! ### StrategyAgent state, handlers and run cycle -/

/-- The mutable state of `StrategyAgent` relevant to fusion: the latest
retained sample per topic and the output `asyncio.Queue` (oldest first). -/
structure StratState where
  latest_tel : Option TelemetrySample
  latest_wx : Option WeatherSample
  queue : List StrategyInsight

/-- `StrategyAgent.on_telemetry(event)`: build a `TelemetrySample` from the
event payload and store it in `_latest_tel`.  `none` models the `TypeError`
raised when the payload does not match the constructor. -/
def onTelemetry (s : StratState) (e : EventRec) : Option StratState :=
  match decodeTel e.payload with
  | some t => some { s with latest_tel := some t }
  | none => none

/-- `StrategyAgent.on_weather(event)`: build a `WeatherSample` from the event
payload and store it in `_latest_wx`. -/
def onWeather (s : StratState) (e : EventRec) : Option StratState :=
  match decodeWx e.payload with
  | some w => some { s with latest_wx := some w }
  | none => none

/-- One iteration of the `while` loop in `StrategyAgent._run`: when both
latest samples are present (dataclass instances are always truthy, so the
`if self._latest_tel and self._latest_wx` test is exactly presence), compute
the insight, put it on the queue and publish it on `strategy.insight`;
otherwise do nothing.  The returned list is the `(topic, payload)` publish
calls of the cycle. -/
def runCycle (s : StratState) (draw : ℤ) :
    StratState × List (String × PyDict) :=
  match s.latest_tel, s.latest_wx with
  | some tel, some wx =>
      let insight := computeInsight tel wx draw
      ({ s with queue := s.queue ++ [insight] },
       [("strategy.insight", encodeInsight insight)])
  | _, _ => (s, [])

/-! ### Orchestrator lifecycle

`ADKOrchestrator.start` returns early when `_started` is set; otherwise it
starts the three agents (each setting its `_running` flag) and sets
`_started`.  `stop` is the mirror image.  The `asyncio.Task` plumbing is
cooperative-scheduling glue and not part of the state model. -/

/-- Lifecycle flags of the orchestrator and its three agents. -/
structure OrchState where
  telRunning : Bool
  wxRunning : Bool
  stratRunning : Bool
  started : Bool
  deriving DecidableEq

/-- `ADKOrchestrator.start()`. -/
def orchStart (o : OrchState) : OrchState :=
  if o.started then o
  else { telRunning := true, wxRunning := true, stratRunning := true,
         started := true }

/-- `ADKOrchestrator.stop()`. -/
def orchStop (o : OrchState) : OrchState :=
  if o.started then
    { telRunning := false, wxRunning := false, stratRunning := false,
      started := false }
  else o

/-! ### GeminiService (`gemini_service.py`)

The provider (`google.generativeai`) is external: its behaviour on a call to
`generate_content` is a `ProviderOutcome` — either an exception or a response
object with an optional `.text` and a list of candidates, each of which
yields `cand.content.parts[0].text` or raises (modelled by `Option`).
Whether the SDK import succeeded (`genai is None`) is the `sdk_present`
field. -/

/-- A provider candidate: `cand.content.parts[0].text`, or `none` when that
attribute-chain access raises. -/
structure Candidate where
  partText : Option String

/-- A provider response: optional `.text` (absent attribute or `None`
collapse to `none`; the empty string is falsy and handled separately) and
the `.candidates` list. -/
structure GenResponse where
  text : Option String
  candidates : List Candidate

/-- The outcome of one `self.model.generate_content(prompt)` call. -/
inductive ProviderOutcome where
  | raises (msg : String)
  | returns (resp : GenResponse)

/-- The four entries of `generation_config`. -/
structure GenerationConfig where
  temperature : ℚ
  top_p : ℚ
  top_k : ℤ
  max_output_tokens : ℤ
  deriving DecidableEq

/-- The fields of a `GeminiService` instance after `__init__`. -/
structure GeminiService where
  api_key : Option String
  model_name : String
  system_instruction : String
  generation_config : GenerationConfig
  sdk_present : Bool
  client_ready : Bool
  deriving DecidableEq

/-- The fixed instructional message `_generate_text` returns when the client
is not initialized. -/
def notInitializedMsg : String :=
  "Gemini client not initialized. Ensure google-generativeai is installed and GEMINI_API_KEY " ++
  "or GOOGLE_API_KEY is set."

/-- The candidates fallback inside `_generate_text`: collect
`cand.content.parts[0].text` for each candidate (skipping those that raise),
keep the truthy ones, join with newlines, defaulting to the empty string. -/
def joinCandidates (resp : GenResponse) : String :=
  match resp.candidates with
  | [] => ""
  | _ :: _ =>
      let parts := resp.candidates.filterMap (fun c => c.partText)
      let good := parts.filter (fun p => p ≠ "")
      let j := String.intercalate "\n" good
      if j = "" then "" else j

/-- `GeminiService._generate_text(prompt)` given the provider outcome of the
`generate_content` call.  The prompt only flows to the provider, so it does
not appear on the right-hand side; every branch of the source returns a
string (all exceptions inside the `try` are caught by `except Exception`). -/
def generateText (svc : GeminiService) (_prompt : String)
    (outcome : ProviderOutcome) : String :=
  if svc.sdk_present = false ∨ svc.client_ready = false then notInitializedMsg
  else
    match outcome with
    | .raises msg => "Gemini API error: " ++ msg
    | .returns resp =>
        match resp.text with
        | some t => if t ≠ "" then t else joinCandidates resp
        | none => joinCandidates resp

mutual

/-- `json.dumps(d, indent=2, ensure_ascii=False)` inside
`_safe_format_dict`, modelled as a structural JSON rendering (indentation
and string escaping elided; no claim depends on the concrete layout). -/
def renderVal : PyVal → String
  | .str s => "\x22" ++ s ++ "\x22"
  | .int n => toString n
  | .rat q => toString q
  | .pynone => "null"
  | .list l => "[" ++ String.intercalate ", " (renderValList l) ++ "]"
  | .dict d => "\x7b" ++ String.intercalate ", " (renderValPairs d) ++ "\x7d"

/-- Render the elements of a JSON array. -/
def renderValList : List PyVal → List String
  | [] => []
  | v :: vs => renderVal v :: renderValList vs

/-- Render the entries of a JSON object. -/
def renderValPairs : List (String × PyVal) → List String
  | [] => []
  | (k, v) :: kvs => ("\x22" ++ k ++ "\x22: " ++ renderVal v) :: renderValPairs kvs

end

/-- `GeminiService._safe_format_dict(d)`. -/
def safeFormatDict (d : PyDict) : String :=
  renderVal (.dict d)

/-- `GeminiService._compose_prompt(task, context, payload, requirements)`. -/
def composePrompt (svc : GeminiService) (task : String)
    (context payload : PyDict) (requirements : List String) : String :=
  let req := String.intercalate "\n- " requirements
  "Task: " ++ task ++ "\n" ++
  "System: " ++ svc.system_instruction ++ "\n\n" ++
  "Context:\n" ++ safeFormatDict context ++ "\n\n" ++
  "Input:\n" ++ safeFormatDict payload ++ "\n\n" ++
  "Requirements:\n- " ++ (if req ≠ "" then req else "Be concise and actionable.") ++ "\n\n" ++
  "Return clear, structured text with bullet points where appropriate."

/-- `GeminiService.analyze_tire_strategy(race_context, strategy_plan)`.  The
method reads `self` but never assigns to it, so the instance is returned
unchanged alongside the result. -/
def analyzeTireStrategy (svc : GeminiService)
    (race_context strategy_plan : PyDict) (outcome : ProviderOutcome) :
    String × GeminiService :=
  let prompt := composePrompt svc "Analyze Tire Strategy" race_context
    [("plan", .dict strategy_plan)]
    ["Assess stint lengths vs. expected degradation and undercut/overcut windows",
     "Consider safety car/VSC likelihood and optimal pit windows",
     "Quantify pit loss, warmup characteristics, and traffic risk",
     "Provide 2-3 actionable recommendations with rationale"]
  (generateText svc prompt outcome, svc)

/-- `GeminiService.predict_race_outcome(race_context, competitors)`. -/
def predictRaceOutcome (svc : GeminiService)
    (race_context competitors : PyDict) (outcome : ProviderOutcome) :
    String × GeminiService :=
  let prompt := composePrompt svc "Predict Race Outcome" race_context
    [("competitors", .dict competitors)]
    ["Provide finishing position range for top 5 targets",
     "Call out decisive moments: pit windows, tire offset, safety car",
     "Include probability-style language (e.g., likely/unlikely, 60-70%)"]
  (generateText svc prompt outcome, svc)

/-- `GeminiService.explain_strategy_decision(decision, data)`. -/
def explainStrategyDecision (svc : GeminiService)
    (decision : String) (data : PyDict) (outcome : ProviderOutcome) :
    String × GeminiService :=
  let prompt := composePrompt svc "Explain Strategy Decision"
    [("decision", .str decision)]
    [("evidence", .dict data)]
    ["Bullet points with clear rationale",
     "List trade-offs and risks",
     "Add a brief counterfactual: what if we did not make this choice?"]
  (generateText svc prompt outcome, svc)

/-! ## Theorems for the claims -/

theorem mapM_loop_asRat (l acc : List ℚ) :
    List.mapM.loop asRat (l.map PyVal.rat) acc = some (acc.reverse ++ l) := by
  induction l generalizing acc with
  | nil => simp [List.mapM.loop]
  | cons q qs ih => simp [List.mapM.loop, asRat, ih]

theorem mapM_asRat_map_rat (l : List ℚ) :
    (l.map PyVal.rat).mapM asRat = some l := by
  simpa [List.mapM] using mapM_loop_asRat l []

/-- Concrete telemetry sample used in witnesses and counterexamples: worn
soft tyres (wear 40 > 35 forces the pit branch). -/
def telW : TelemetrySample :=
  { car_id := "RD01", lap := 10, sector_times := [30, 30, 30], speed := 300,
    tyre_compound := "SOFT", tyre_wear_pct := 40, fuel_kg := 50, position := 5 }

/-- Concrete weather sample used in witnesses and counterexamples. -/
def wxW : WeatherSample :=
  { temp_c := 25, track_temp_c := 35, rain_prob := 0, wind_kph := 10 }

/-- C2: `EventBus.publish(t, p)` invokes exactly the callbacks subscribed to
topic `t`, each once per subscription, in registration order, each with the
event for this publish, and it invokes no callback subscribed to another
topic: the invocation list is exactly the registrations to `t`, in order. -/
theorem publish_invokes_topic_subscribers_in_order
    (regs : List (String × ℕ)) (t : String) (p : PyDict) :
    (publish (busOfRegs regs) t p).2 =
      ((regs.filter (fun r => r.1 = t)).map (fun r => r.2)).map
        (fun c => (c, ⟨t, p⟩)) := by
  have h := subsOf_busOfRegs_aux regs [] t
  simp only [publish, busOfRegs, subsOf] at h ⊢
  rw [h]
  simp [List.map_map]

/-- C3: the bus retains nothing across calls: `publish` never changes the bus
state; a publish on a topic with no subscribers performs no invocation; and
over any operation trace, every delivery of a publish at step `j` goes to a
callback subscribed to that topic at a strictly earlier step — in particular
a callback subscribed after a publish is never invoked for it. -/
theorem bus_retains_no_events :
    (∀ b t p, (publish b t p).1 = b) ∧
    (∀ b t p, subsOf b t = [] → publish b t p = (b, [])) ∧
    (∀ ops j c t p, (j, c, t, p) ∈ runLog 0 [] ops →
       ∃ k, k < j ∧ ops.get? k = some (BusOp.sub t c)) := by
  refine ⟨fun b t p => rfl, fun b t p h => by simp [publish, h], ?_⟩
  intro ops j c t p hmem
  obtain ⟨-, h⟩ := runLog_mem ops 0 [] j c t p hmem
  rcases h with h | ⟨k, -, hk2, hk3⟩
  · simp [subsOf] at h
  · exact ⟨k, hk2, by simpa using hk3⟩

/-- C3 witness: a two-step trace (subscribe callback 5 to topic a, then
publish on topic a) delivers at step 1, and the theorem locates the
subscription strictly before it; plus a publish on an empty bus. -/
theorem bus_retains_no_events_witness :
    (publish [] "a" [] = ([], [])) ∧
    (∃ k, k < 1 ∧
      [BusOp.sub "a" 5, BusOp.pub "a" []].get? k = some (BusOp.sub "a" 5)) := by
  constructor
  · exact bus_retains_no_events.2.1 [] "a" [] rfl
  · exact bus_retains_no_events.2.2 [BusOp.sub "a" 5, BusOp.pub "a" []] 1 5 "a" []
      (by simp [runLog, subscribe, subsOf])

/-- C4: `on_telemetry` stores the sample built from the event payload in
`_latest_tel` and leaves `_latest_wx` and the queue unchanged; `on_weather`
is symmetric. -/
theorem handlers_update_only_their_topic (s : StratState) (e : EventRec)
    (t : TelemetrySample) (w : WeatherSample) :
    (decodeTel e.payload = some t →
       onTelemetry s e = some ⟨some t, s.latest_wx, s.queue⟩) ∧
    (decodeWx e.payload = some w →
       onWeather s e = some ⟨s.latest_tel, some w, s.queue⟩) := by
  constructor
  · intro h
    simp [onTelemetry, h]
  · intro h
    simp [onWeather, h]

/-- C4 witness: concrete events built from `telW.__dict__` and
`wxW.__dict__` applied to an empty agent state. -/
theorem handlers_update_only_their_topic_witness :
    onTelemetry ⟨none, none, []⟩ ⟨"telemetry.sample", encodeTel telW⟩ =
      some ⟨some telW, none, []⟩ ∧
    onWeather ⟨none, none, []⟩ ⟨"weather.sample", encodeWx wxW⟩ =
      some ⟨none, some wxW, []⟩ := by
  constructor
  · exact (handlers_update_only_their_topic ⟨none, none, []⟩
      ⟨"telemetry.sample", encodeTel telW⟩ telW wxW).1
      (by decide)
  · exact (handlers_update_only_their_topic ⟨none, none, []⟩
      ⟨"weather.sample", encodeWx wxW⟩ telW wxW).2
      (by simp [decodeWx, encodeWx, findKey, List.find?, asRat, wxW])

/-- C9: samples round-trip through the bus payload encoding: rebuilding a
sample from its published field dictionary gives back the same sample, for
both telemetry and weather samples. -/
theorem sample_payload_round_trip (t : TelemetrySample) (w : WeatherSample) :
    decodeTel (encodeTel t) = some t ∧ decodeWx (encodeWx w) = some w := by
  constructor
  · simp [decodeTel, encodeTel, findKey, List.find?, asStr, asInt, asRat,
      asRatList, mapM_asRat_map_rat, mapM_loop_asRat]
  · simp [decodeWx, encodeWx, findKey, List.find?, asRat]

/-- C1: one cycle of `StrategyAgent._run` does nothing when either latest
sample is absent (no insight, queue unchanged, no publish), and when both are
present it appends exactly one insight — computed from those two samples — to
the queue and publishes exactly that insight on `strategy.insight`. -/
theorem strategy_run_cycle_skips_or_fuses :
    (∀ s draw, s.latest_tel = none ∨ s.latest_wx = none →
       runCycle s draw = (s, [])) ∧
    (∀ s draw tel wx, s.latest_tel = some tel → s.latest_wx = some wx →
       runCycle s draw =
         ({ s with queue := s.queue ++ [computeInsight tel wx draw] },
          [("strategy.insight", encodeInsight (computeInsight tel wx draw))])) := by
  constructor
  · intro s draw h
    obtain ⟨lt, lw, q⟩ := s
    rcases h with h | h <;> subst h
    · simp [runCycle]
    · cases lt <;> simp [runCycle]
  · intro s draw tel wx ht hw
    obtain ⟨lt, lw, q⟩ := s
    cases ht
    cases hw
    simp [runCycle]

/-- C1 witness: a cycle with missing weather does nothing; a cycle with both
samples present enqueues and publishes the computed insight. -/
theorem strategy_run_cycle_skips_or_fuses_witness :
    runCycle ⟨some telW, none, []⟩ 2 = (⟨some telW, none, []⟩, []) ∧
    runCycle ⟨some telW, some wxW, []⟩ 2 =
      (⟨some telW, some wxW, [computeInsight telW wxW 2]⟩,
       [("strategy.insight", encodeInsight (computeInsight telW wxW 2))]) := by
  constructor
  · exact strategy_run_cycle_skips_or_fuses.1 ⟨some telW, none, []⟩ 2 (Or.inr rfl)
  · exact strategy_run_cycle_skips_or_fuses.2 ⟨some telW, some wxW, []⟩ 2 telW wxW
      rfl rfl

/-- C6: the orchestrator lifecycle: `start` on a started orchestrator and
`stop` on a non-started one are no-ops; otherwise `start` starts all three
agents and sets the flag, `stop` stops all three and clears it; both
operations are idempotent. -/
theorem orchestrator_lifecycle_idempotent :
    (∀ o : OrchState, o.started = true → orchStart o = o) ∧
    (∀ o : OrchState, o.started = false → orchStop o = o) ∧
    (∀ o : OrchState, o.started = false →
       orchStart o = ⟨true, true, true, true⟩) ∧
    (∀ o : OrchState, o.started = true →
       orchStop o = ⟨false, false, false, false⟩) ∧
    (∀ o : OrchState, orchStart (orchStart o) = orchStart o) ∧
    (∀ o : OrchState, orchStop (orchStop o) = orchStop o) := by
  refine ⟨?_, ?_, ?_, ?_, ?_, ?_⟩
  · intro o h
    simp [orchStart, h]
  · intro o h
    simp [orchStop, h]
  · intro o h
    simp [orchStart, h]
  · intro o h
    simp [orchStop, h]
  · intro o
    by_cases h : o.started <;> simp [orchStart, h]
  · intro o
    by_cases h : o.started <;> simp [orchStop, h]

/-- C6 witness: the lifecycle facts evaluated on the freshly constructed
orchestrator (all flags clear) and on a fully started one. -/
theorem orchestrator_lifecycle_idempotent_witness :
    orchStart ⟨true, true, true, true⟩ = ⟨true, true, true, true⟩ ∧
    orchStop ⟨false, false, false, false⟩ = ⟨false, false, false, false⟩ ∧
    orchStart ⟨false, false, false, false⟩ = ⟨true, true, true, true⟩ ∧
    orchStop ⟨true, true, true, true⟩ = ⟨false, false, false, false⟩ := by
  refine ⟨?_, ?_, ?_, ?_⟩
  · exact orchestrator_lifecycle_idempotent.1 ⟨true, true, true, true⟩ rfl
  · exact orchestrator_lifecycle_idempotent.2.1 ⟨false, false, false, false⟩ rfl
  · exact orchestrator_lifecycle_idempotent.2.2.1 ⟨false, false, false, false⟩ rfl
  · exact orchestrator_lifecycle_idempotent.2.2.2.1 ⟨true, true, true, true⟩ rfl

/-- C5 counterexample: the fusion computation is not deterministic in the
samples alone.  With worn soft tyres (wear 40 > 35) the pit branch is taken
and `recommended_pit_in_laps` is `random.randint(1, 3)`: two runs on the very
same telemetry and weather samples, whose random draws happen to be 1 and 2
(both legitimate `randint(1, 3)` outcomes), return different insights. -/
theorem compute_insight_random_counterexample :
    computeInsight telW wxW 1 ≠ computeInsight telW wxW 2 := by
  decide

/-- C5 (amended): the fusion computation is deterministic in the samples
together with the random pit-lap draw; in particular every field except
`recommended_pit_in_laps` is a function of the two samples alone, and runs
with equal samples and equal draws return equal insights. -/
theorem compute_insight_deterministic_given_draw
    (tel : TelemetrySample) (wx : WeatherSample) (d₁ d₂ : ℤ) :
    (computeInsight tel wx d₁).target_compound =
      (computeInsight tel wx d₂).target_compound ∧
    (computeInsight tel wx d₁).pace_delta_s =
      (computeInsight tel wx d₂).pace_delta_s ∧
    (computeInsight tel wx d₁).risk_rain =
      (computeInsight tel wx d₂).risk_rain ∧
    (computeInsight tel wx d₁).confidence =
      (computeInsight tel wx d₂).confidence ∧
    (d₁ = d₂ → computeInsight tel wx d₁ = computeInsight tel wx d₂) := by
  refine ⟨rfl, rfl, rfl, rfl, fun h => by rw [h]⟩

/-- C5 witness: the sample-determined fields agree across the two runs of the
counterexample, and equal draws give equal insights. -/
theorem compute_insight_deterministic_given_draw_witness :
    (computeInsight telW wxW 1).confidence =
      (computeInsight telW wxW 2).confidence ∧
    computeInsight telW wxW 3 = computeInsight telW wxW 3 := by
  constructor
  · exact (compute_insight_deterministic_given_draw telW wxW 1 2).2.2.2.1
  · exact (compute_insight_deterministic_given_draw telW wxW 3 3).2.2.2.2 rfl

/-- C7: `_generate_text` is total over provider outcomes (it returns a
`String` in every case of the model, mirroring that every exception in the
source is caught): when the SDK is absent or the client is not ready it
returns the fixed instructional message; when the provider call raises it
returns `Gemini API error: ` followed by the exception text; and when the
response carries neither truthy text nor candidates it returns `""`. -/
theorem generate_text_total_normalization :
    (∀ svc prompt out, svc.sdk_present = false ∨ svc.client_ready = false →
       generateText svc prompt out = notInitializedMsg) ∧
    (∀ svc prompt msg, svc.sdk_present = true → svc.client_ready = true →
       generateText svc prompt (.raises msg) = "Gemini API error: " ++ msg) ∧
    (∀ svc prompt resp, svc.sdk_present = true → svc.client_ready = true →
       (resp.text = none ∨ resp.text = some "") → resp.candidates = [] →
       generateText svc prompt (.returns resp) = "") := by
  refine ⟨?_, ?_, ?_⟩
  · intro svc prompt out h
    rcases h with h | h <;> simp [generateText, h]
  · intro svc prompt msg h1 h2
    simp [generateText, h1, h2]
  · intro svc prompt resp h1 h2 ht hc
    rcases ht with ht | ht <;>
      simp [generateText, joinCandidates, h1, h2, ht, hc]

/-- A ready service configuration, as built by `__init__` with the SDK
present and a key configured; used in witnesses. -/
def svcW : GeminiService :=
  { api_key := some "k", model_name := "models/gemini-1.5-pro",
    system_instruction :=
      "You are an expert Formula 1 race strategist. Be concise, factual, and actionable. " ++
      "Use bullet points, include assumptions, and highlight uncertainties.",
    generation_config :=
      { temperature := 4/10, top_p := 95/100, top_k := 32,
        max_output_tokens := 2048 },
    sdk_present := true, client_ready := true }

/-- C7 witness: the three normalization cases evaluated on concrete services,
prompts and provider outcomes. -/
theorem generate_text_total_normalization_witness :
    generateText { svcW with client_ready := false } "p" (.raises "boom") =
      notInitializedMsg ∧
    generateText svcW "p" (.raises "boom") = "Gemini API error: " ++ "boom" ∧
    generateText svcW "p" (.returns ⟨none, []⟩) = "" := by
  refine ⟨?_, ?_, ?_⟩
  · exact generate_text_total_normalization.1 { svcW with client_ready := false }
      "p" (.raises "boom") (Or.inr rfl)
  · exact generate_text_total_normalization.2.1 svcW "p" "boom" rfl rfl
  · exact generate_text_total_normalization.2.2 svcW "p" ⟨none, []⟩ rfl rfl
      (Or.inl rfl) rfl

/-- C8: the LLM wrapper is stateless: the three public methods return the
service instance unchanged (no field is assigned), and `_compose_prompt`
depends only on its arguments and the configured system instruction. -/
theorem gemini_service_stateless :
    (∀ svc ctx plan out, (analyzeTireStrategy svc ctx plan out).2 = svc) ∧
    (∀ svc ctx comp out, (predictRaceOutcome svc ctx comp out).2 = svc) ∧
    (∀ svc d data out, (explainStrategyDecision svc d data out).2 = svc) ∧
    (∀ s₁ s₂ : GeminiService, ∀ task ctx payload reqs,
       s₁.system_instruction = s₂.system_instruction →
       composePrompt s₁ task ctx payload reqs =
         composePrompt s₂ task ctx payload reqs) := by
  refine ⟨fun _ _ _ _ => rfl, fun _ _ _ _ => rfl, fun _ _ _ _ => rfl, ?_⟩
  intro s₁ s₂ task ctx payload reqs h
  simp [composePrompt, h]

/-- C8 witness: frame facts evaluated on a concrete service, and prompt
composition agreeing on two services differing in every field but the system
instruction. -/
theorem gemini_service_stateless_witness :
    (analyzeTireStrategy svcW [] [] (.raises "x")).2 = svcW ∧
    composePrompt svcW "T" [] [] [] =
      composePrompt { svcW with api_key := none, client_ready := false }
        "T" [] [] [] := by
  constructor
  · exact gemini_service_stateless.1 svcW [] [] (.raises "x")
  · exact gemini_service_stateless.2.2.2 svcW
      { svcW with api_key := none, client_ready := false } "T" [] [] [] rfl

/-- C10: invariants of every insight computed by `_compute_insight` (with a
weather sample carrying a non-negative rain probability, as every sample in
this system does, and a pit-lap draw in the `randint(1, 3)` range):
confidence lies in `[0.1, 0.95]`, the pace delta is non-negative, `risk_rain`
is the input rain probability, the pit recommendation and target compound are
set together, and when set they lie in `{1, 2, 3}` resp.
`{INTERS, HARD, MEDIUM}`. -/
theorem insight_invariants (tel : TelemetrySample) (wx : WeatherSample)
    (draw : ℤ) (hrain : 0 ≤ wx.rain_prob) (hd1 : 1 ≤ draw) (hd3 : draw ≤ 3) :
    (1/10 ≤ (computeInsight tel wx draw).confidence ∧
      (computeInsight tel wx draw).confidence ≤ 95/100) ∧
    0 ≤ (computeInsight tel wx draw).pace_delta_s ∧
    (computeInsight tel wx draw).risk_rain = wx.rain_prob ∧
    ((computeInsight tel wx draw).recommended_pit_in_laps = none ↔
      (computeInsight tel wx draw).target_compound = none) ∧
    (∀ n, (computeInsight tel wx draw).recommended_pit_in_laps = some n →
      n = 1 ∨ n = 2 ∨ n = 3) ∧
    (∀ c, (computeInsight tel wx draw).target_compound = some c →
      c = "INTERS" ∨ c = "HARD" ∨ c = "MEDIUM") := by
  have hconf : (computeInsight tel wx draw).confidence =
      pyRound 2 (max (1/10) (min (95/100)
        (6/10 + (4/10 - min (4/10) |3/10 - wx.rain_prob|) -
          min (3/10) (tel.tyre_wear_pct / 100)))) := rfl
  have hpace : (computeInsight tel wx draw).pace_delta_s =
      pyRound 3 (max 0 ((tel.tyre_wear_pct - 10) * (5/100)) +
        wx.rain_prob * (2/10)) := rfl
  have hrec : (computeInsight tel wx draw).recommended_pit_in_laps =
      (if tel.tyre_wear_pct > 35 ∨ (wx.rain_prob > 45/100 ∧
          (tel.tyre_compound = "SOFT" ∨ tel.tyre_compound = "MEDIUM"))
       then some draw else none) := rfl
  have htar : (computeInsight tel wx draw).target_compound =
      (if tel.tyre_wear_pct > 35 ∨ (wx.rain_prob > 45/100 ∧
          (tel.tyre_compound = "SOFT" ∨ tel.tyre_compound = "MEDIUM"))
       then some (if wx.rain_prob > 5/10 then "INTERS"
                  else if tel.tyre_compound ≠ "HARD" then "HARD" else "MEDIUM")
       else none) := rfl
  have h10 : ((10 : ℤ) : ℚ) / 10 ^ 2 = 1/10 := by norm_num
  have h95 : ((95 : ℤ) : ℚ) / 10 ^ 2 = 95/100 := by norm_num
  refine ⟨?_, ?_, rfl, ?_, ?_, ?_⟩
  · -- confidence bounds survive the clamp and the rounding
    rw [hconf]
    have hlo : (1/10 : ℚ) ≤ max (1/10) (min (95/100)
        (6/10 + (4/10 - min (4/10) |3/10 - wx.rain_prob|) -
          min (3/10) (tel.tyre_wear_pct / 100))) := le_max_left _ _
    have hhi : max (1/10) (min (95/100)
        (6/10 + (4/10 - min (4/10) |3/10 - wx.rain_prob|) -
          min (3/10) (tel.tyre_wear_pct / 100))) ≤ 95/100 :=
      max_le (by norm_num) (min_le_left _ _)
    constructor
    · have h := le_pyRound 2 10 _ (h10 ▸ hlo)
      rwa [h10] at h
    · have h := pyRound_le 2 95 _ (h95 ▸ hhi)
      rwa [h95] at h
  · -- pace delta: both summands are non-negative
    rw [hpace]
    apply pyRound_nonneg
    have h1 : (0 : ℚ) ≤ max 0 ((tel.tyre_wear_pct - 10) * (5/100)) :=
      le_max_left _ _
    have h2 : (0 : ℚ) ≤ wx.rain_prob * (2/10) := by positivity
    linarith
  · rw [hrec, htar]
    split_ifs with hpit <;> simp
  · intro n hn
    rw [hrec] at hn
    split_ifs at hn with hpit
    have hnd : draw = n := Option.some.inj hn
    omega
  · intro c hc
    rw [htar] at hc
    split_ifs at hc with hpit hr hh
    · exact Or.inl (Option.some.inj hc).symm
    · exact Or.inr (Or.inl (Option.some.inj hc).symm)
    · exact Or.inr (Or.inr (Option.some.inj hc).symm)

/-- C10 witness: the invariants evaluated on the worn-soft-tyre telemetry
sample and dry weather sample, with pit-lap draw 2. -/
theorem insight_invariants_witness :
    (1/10 ≤ (computeInsight telW wxW 2).confidence ∧
      (computeInsight telW wxW 2).confidence ≤ 95/100) ∧
    0 ≤ (computeInsight telW wxW 2).pace_delta_s ∧
    (computeInsight telW wxW 2).risk_rain = wxW.rain_prob ∧
    ((computeInsight telW wxW 2).recommended_pit_in_laps = none ↔
      (computeInsight telW wxW 2).target_compound = none) ∧
    (∀ n, (computeInsight telW wxW 2).recommended_pit_in_laps = some n →
      n = 1 ∨ n = 2 ∨ n = 3) ∧
    (∀ c, (computeInsight telW wxW 2).target_compound = some c →
      c = "INTERS" ∨ c = "HARD" ∨ c = "MEDIUM") :=
  insight_invariants telW wxW 2 (by decide) (by decide) (by decide)

end F1
